import Mathlib

/-! StereoKit engine entry points (`StereoKitC/stereokit.cpp`).

A shallow embedding of the engine start-up and frame-step code:

* the eleven `systems_add` registrations made by `sk_init`, with their init and update
  dependency lists, and the orderings of them that respect those dependencies;
* `sk_set_settings`, `platform_init`, `sk_app_update` and `sk_step` as functions on an
  explicit record of the engine globals, returning the calls they make in program order.
-/

namespace StereoKit

/-! ## Subsystem registrations -/

/-- One `systems_add(name, init_deps, n, update_deps, n, init, update, shutdown)` call: the name,
the two dependency lists in declared order, and the three callbacks by the name of the function
passed (`none` for `nullptr`). -/
structure system_t where
  name : String
  init_dependencies : List String
  update_dependencies : List String
  func_initialize : Option String
  func_update : Option String
  func_shutdown : Option String
  deriving DecidableEq, Repr

/-- The `systems_add` calls of `sk_init` (lines 127-170), in program order. -/
def sk_init_systems : List system_t := [
  { name := "Graphics", init_dependencies := [], update_dependencies := [],
    func_initialize := some "d3d_init", func_update := some "d3d_update",
    func_shutdown := some "d3d_shutdown" },
  { name := "Defaults", init_dependencies := ["Graphics"], update_dependencies := [],
    func_initialize := some "sk_create_defaults", func_update := none,
    func_shutdown := some "sk_destroy_defaults" },
  { name := "Platform", init_dependencies := ["Graphics", "Defaults"], update_dependencies := [],
    func_initialize := some "platform_init", func_update := none,
    func_shutdown := some "platform_shutdown" },
  { name := "Physics", init_dependencies := ["Defaults"],
    update_dependencies := ["Input", "FrameBegin"],
    func_initialize := some "physics_init", func_update := some "physics_update",
    func_shutdown := some "physics_shutdown" },
  { name := "Renderer", init_dependencies := ["Graphics", "Defaults"],
    update_dependencies := ["Physics", "FrameBegin"],
    func_initialize := some "render_initialize", func_update := some "render_update",
    func_shutdown := some "render_shutdown" },
  { name := "Input", init_dependencies := ["Platform", "Defaults"],
    update_dependencies := ["FrameBegin"],
    func_initialize := some "input_init", func_update := some "input_update",
    func_shutdown := some "input_shutdown" },
  { name := "Text", init_dependencies := ["Defaults"],
    update_dependencies := ["FrameBegin", "App"],
    func_initialize := none, func_update := some "text_update",
    func_shutdown := some "text_shutdown" },
  { name := "App", init_dependencies := [],
    update_dependencies := ["Input", "Defaults", "FrameBegin", "Graphics", "Physics", "Renderer"],
    func_initialize := none, func_update := some "sk_app_update", func_shutdown := none },
  { name := "FrameBegin", init_dependencies := [], update_dependencies := [],
    func_initialize := none, func_update := some "platform_begin_frame", func_shutdown := none },
  { name := "FrameEnd", init_dependencies := [], update_dependencies := ["App", "Text"],
    func_initialize := none, func_update := some "platform_end_frame", func_shutdown := none },
  { name := "FramePresent", init_dependencies := [], update_dependencies := ["FrameEnd"],
    func_initialize := none, func_update := some "platform_present", func_shutdown := none } ]

/-- The first three `systems_add` calls of `sk_init` (lines 127-133): Graphics, Defaults and
Platform with the init dependencies declared for them. -/
def sk_init_core_systems : List system_t := sk_init_systems.take 3

/-- Names of a list of registrations, in registration order. -/
def system_names (regs : List system_t) : List String := regs.map system_t.name

/-! ## Orderings that respect declared dependencies -/

/-- In `order`, every registered subsystem stands at a later position than each dependency it
declares in the list selected by `deps`. -/
def respects (deps : system_t → List String) (regs : List system_t) (order : List String) : Prop :=
  ∀ s ∈ regs, ∀ d ∈ deps s, order.indexOf d < order.indexOf s.name

instance (deps : system_t → List String) (regs : List system_t) (order : List String) :
    Decidable (respects deps regs order) :=
  inferInstanceAs (Decidable (∀ s ∈ regs, ∀ d ∈ deps s, order.indexOf d < order.indexOf s.name))

/-- The list `order` holds every registered subsystem exactly once and respects `deps`. -/
def valid_order (deps : system_t → List String) (regs : List system_t) (order : List String) :
    Prop :=
  order.Perm (system_names regs) ∧ respects deps regs order

/-- Subsystem `a` declares a dependency on `b` in the list selected by `deps`. -/
def depends_on (deps : system_t → List String) (regs : List system_t) (a b : String) : Prop :=
  ∃ s ∈ regs, s.name = a ∧ b ∈ deps s

/-- No non-empty chain of declared dependencies leads from a subsystem back to itself. -/
def acyclic (deps : system_t → List String) (regs : List system_t) : Prop :=
  ∀ a, ¬ Relation.TransGen (depends_on deps regs) a a

/-- The members of `chain` as they are laid out in `order`. -/
def relative_order (order chain : List String) : List String :=
  order.filter (fun n => decide (n ∈ chain))

instance (deps : system_t → List String) (regs : List system_t) (order : List String) :
    Decidable (valid_order deps regs order) :=
  inferInstanceAs (Decidable (order.Perm (system_names regs) ∧ respects deps regs order))

instance (deps : system_t → List String) (regs : List system_t) (a b : String) :
    Decidable (depends_on deps regs a b) :=
  inferInstanceAs (Decidable (∃ s ∈ regs, s.name = a ∧ b ∈ deps s))

/-- An order of all eleven subsystems that respects the update dependencies. -/
def sample_update_order : List String :=
  ["Graphics", "Defaults", "Platform", "FrameBegin", "Input", "Physics", "Renderer", "App",
   "Text", "FrameEnd", "FramePresent"]

/-- The list `l` with `n` placed so that exactly `i` members of `l` stand before it. -/
def place_at (i : Nat) (n : String) (l : List String) : List String :=
  l.take i ++ n :: l.drop i

/-! ## The order computation

`systems_initialize` and the sort it runs live in `system.cpp`; the definitions below follow the
specification of the Graph Orderer, in its Kahn-style and its depth-first reading. -/

/-- Configuration errors of the order computation. -/
inductive sort_error where
  | missing_name (n : String)
  | cycle (n : String)
  deriving DecidableEq, Repr

/-- Modelled from the spec: the unknown-name check of the Graph Orderer (`system.cpp` is absent).
"If an edge references an unknown node name, fail with a configuration error identifying the
missing name": the first declared dependency that names no registered subsystem. -/
def find_missing (deps : system_t → List String) (regs : List system_t) : Option String :=
  (regs.flatMap deps).find? (fun d => decide (d ∉ system_names regs))

/-- Modelled from the spec: the loop of a Kahn-style topological sort (`system.cpp` is absent).
Each round appends the first subsystem, in registration order, that is not yet placed and whose
dependencies are all placed; when no such subsystem exists the sort ends, with a cycle error if
some subsystem is still unplaced. -/
def kahn_loop (deps : system_t → List String) (regs : List system_t) :
    Nat → List String → Except sort_error (List String)
  | 0, done =>
    match regs.find? (fun s => decide (s.name ∉ done)) with
    | some s => .error (.cycle s.name)
    | none => .ok done
  | fuel + 1, done =>
    match regs.find? (fun s => decide (s.name ∉ done ∧ ∀ d ∈ deps s, d ∈ done)) with
    | some s => kahn_loop deps regs fuel (done ++ [s.name])
    | none =>
      match regs.find? (fun s => decide (s.name ∉ done)) with
      | some s => .error (.cycle s.name)
      | none => .ok done

/-- Modelled from the spec: the Graph Orderer as a Kahn-style topological sort that breaks ties
by registration order (`system.cpp` is absent). One round per registered subsystem. -/
def kahn_sort (deps : system_t → List String) (regs : List system_t) :
    Except sort_error (List String) :=
  match find_missing deps regs with
  | some n => .error (.missing_name n)
  | none => kahn_loop deps regs regs.length []

/-- Modelled from the spec: one visit of a depth-first topological sort (`system.cpp` is absent).
A placed subsystem is skipped, one met again on the current path is a cycle, an unregistered
name is a missing-name error; otherwise the dependencies are visited in declared order and the
subsystem is placed after them. -/
def dfs_visit (deps : system_t → List String) (regs : List system_t) :
    Nat → String → List String → List String → Except sort_error (List String)
  | 0, n, _, _ => .error (.cycle n)
  | fuel + 1, n, path, done =>
    if n ∈ done then .ok done
    else if n ∈ path then .error (.cycle n)
    else
      match regs.find? (fun s => decide (s.name = n)) with
      | none => .error (.missing_name n)
      | some s =>
        match (deps s).foldlM (fun acc d => dfs_visit deps regs fuel d (n :: path) acc) done with
        | .error e => .error e
        | .ok acc => .ok (acc ++ [n])

/-- Modelled from the spec: the Graph Orderer as a depth-first topological sort that starts its
visits in registration order (`system.cpp` is absent). A path never repeats a name, so a visit
nests at most one level per registered subsystem. -/
def dfs_sort (deps : system_t → List String) (regs : List system_t) :
    Except sort_error (List String) :=
  (system_names regs).foldlM (fun acc n => dfs_visit deps regs (regs.length + 1) n [] acc) []

/-- Modelled from the spec: the shutdown pass walks the reverse of the init order
(`systems_shutdown` is in `system.cpp`, which is absent). -/
def shutdown_order (init_order : List String) : List String := init_order.reverse

/-! ## Engine globals and entry points -/

/-- The enumeration `sk_runtime_` (declared in `stereokit.h`), with the two enumerators that
`stereokit.cpp` names and switches over. -/
inductive sk_runtime_ where
  | sk_runtime_flatscreen
  | sk_runtime_mixedreality
  deriving DecidableEq, Repr

/-- Severity argument of `log_write` / `log_writef`. -/
inductive log_ where
  | log_info
  | log_warning
  | log_error
  deriving DecidableEq, Repr

/-- Calls into other translation units and the standard library that the modelled functions
make; `log_writef` is recorded with its formatted text. -/
inductive call where
  | log_write (level : log_) (text : String)
  | openxr_init
  | win32_init
  | systems_update
  | sleep_for (milliseconds : Nat)
  deriving DecidableEq, Repr

/-- The file-level globals of `stereokit.cpp` that the entry points read or write (lines 18-26).
The settings record type `σ` and the type `κ` of non-null `void (*)(void)` callbacks are left
abstract. The `bool32_t` flags are integers, false exactly when zero. -/
structure engine_state (σ κ : Type) where
  sk_app_name : String
  sk_app_update_func : Option κ
  sk_runtime : sk_runtime_
  sk_runtime_fallback : Bool
  sk_settings : σ
  sk_focused : Int
  sk_run : Int
  sk_d3d_initialized : Bool

/-- What a modelled function leaves behind: its return value, the globals afterwards, and the
calls it made, in program order. -/
structure outcome (α σ κ : Type) where
  ret : α
  state : engine_state σ κ
  calls : List call

/-- The function `sk_set_settings` (lines 49-55). -/
def sk_set_settings {σ κ : Type} (settings : σ) (g : engine_state σ κ) : outcome Unit σ κ :=
  if g.sk_d3d_initialized then
    { ret := (), state := g,
      calls := [call.log_write log_.log_error
        "Settings need set before initialization! Please call this -before- sk_init."] }
  else
    { ret := (), state := { g with sk_settings := settings }, calls := [] }

/-- Text the `%s` of the warning in `platform_init` expands to (line 68). -/
def runtime_label (r : sk_runtime_) : String :=
  if r = sk_runtime_.sk_runtime_mixedreality then "MixedReality" else "Flatscreen"

/-- The function `platform_init` (lines 57-79). `SK_NO_FLATSCREEN` tells whether that macro is
defined for the build; `openxr_init` is the result of the call to `openxr_init` and
`win32_init k` the result of the call to `win32_init` made after `k` earlier ones. -/
def platform_init {σ κ : Type} (SK_NO_FLATSCREEN : Bool) (openxr_init : Bool)
    (win32_init : Nat → Bool) (g : engine_state σ κ) : outcome Bool σ κ :=
  let first : Bool × List call :=
    if g.sk_runtime = sk_runtime_.sk_runtime_mixedreality then (openxr_init, [call.openxr_init])
    else if SK_NO_FLATSCREEN then (false, [])
    else (win32_init 0, [call.win32_init])
  let result := first.1
  let calls :=
    if !result then
      first.2 ++ [call.log_write log_.log_warning
        ("Couldn't create StereoKit in " ++ runtime_label g.sk_runtime ++ " mode!")]
    else first.2
  if !SK_NO_FLATSCREEN && (!result && g.sk_runtime_fallback
      && decide (g.sk_runtime ≠ sk_runtime_.sk_runtime_flatscreen)) then
    { ret := win32_init (calls.count call.win32_init),
      state := { g with sk_runtime := sk_runtime_.sk_runtime_flatscreen },
      calls := calls ++ [call.log_write log_.log_info "Runtime falling back to Flatscreen",
        call.win32_init] }
  else
    { ret := result, state := g, calls := calls }

/-- The function `sk_app_update` (lines 117-120); `run f` is the effect of calling the
callback `f` on the globals. -/
def sk_app_update {σ κ : Type} (run : κ → engine_state σ κ → engine_state σ κ)
    (g : engine_state σ κ) : engine_state σ κ :=
  match g.sk_app_update_func with
  | some f => run f g
  | none => g

/-- The assignments and registrations of `sk_init` (lines 122-170): the globals after the three
assignments, and the `systems_add` calls made. The value `sk_init` returns is that of
`systems_initialize`, which is defined in `system.cpp`. -/
def sk_init {σ κ : Type} (app_name : String) (runtime_preference : sk_runtime_) (fallback : Int)
    (g : engine_state σ κ) : engine_state σ κ × List system_t :=
  ({ g with sk_runtime := runtime_preference, sk_runtime_fallback := decide (fallback ≠ 0),
            sk_app_name := app_name },
   sk_init_systems)

/-- The function `sk_step` (lines 194-202); `systems_update` is the effect of the update pass
(defined in `system.cpp`) on the globals. -/
def sk_step {σ κ : Type} (systems_update : engine_state σ κ → engine_state σ κ)
    (app_update : Option κ) (g : engine_state σ κ) : outcome Int σ κ :=
  let g1 := systems_update { g with sk_app_update_func := app_update }
  { ret := g1.sk_run,
    state := g1,
    calls := call.systems_update ::
      (if g1.sk_focused = 0 then [call.sleep_for (if g1.sk_focused ≠ 0 then 1 else 250)]
       else []) }

/-- Globals as the initialisers of lines 18-26 leave them, for a given settings value. -/
def initial_state {σ κ : Type} (settings : σ) : engine_state σ κ :=
  { sk_app_name := "", sk_app_update_func := none,
    sk_runtime := sk_runtime_.sk_runtime_flatscreen, sk_runtime_fallback := false,
    sk_settings := settings, sk_focused := 1, sk_run := 1, sk_d3d_initialized := false }

/-! ## Facts about positions in duplicate-free lists -/

theorem indexOf_pairwise_of_nodup {l : List String} (h : l.Nodup) :
    l.Pairwise (fun a b => l.indexOf a < l.indexOf b) := by
  induction l with
  | nil => exact List.Pairwise.nil
  | cons x t ih =>
    rw [List.nodup_cons] at h
    refine List.Pairwise.cons ?_ ?_
    · intro b hb
      have hne : x ≠ b := fun e => h.1 (e ▸ hb)
      rw [List.indexOf_cons_self, List.indexOf_cons_ne _ hne]
      exact Nat.succ_pos _
    · refine (ih h.2).imp_of_mem ?_
      intro a b ha hb hab
      have hxa : x ≠ a := fun e => h.1 (e ▸ ha)
      have hxb : x ≠ b := fun e => h.1 (e ▸ hb)
      rw [List.indexOf_cons_ne _ hxa, List.indexOf_cons_ne _ hxb]
      exact Nat.succ_lt_succ hab

theorem indexOf_lt_of_sublist {l : List String} (h : l.Nodup) {a b : String}
    (hs : [a, b].Sublist l) : l.indexOf a < l.indexOf b :=
  List.pairwise_iff_forall_sublist.1 (indexOf_pairwise_of_nodup h) hs

theorem sublist_of_indexOf_lt {l : List String} {a b : String} (hb : b ∈ l)
    (h : l.indexOf a < l.indexOf b) : [a, b].Sublist l := by
  induction l with
  | nil => cases hb
  | cons x t ih =>
    by_cases hxa : x = a
    · subst hxa
      have hne : x ≠ b := by
        intro e
        subst e
        exact absurd h (lt_irrefl _)
      have hbt : b ∈ t := by
        rcases List.mem_cons.1 hb with e | e
        · exact absurd e.symm hne
        · exact e
      exact List.Sublist.cons₂ _ (List.singleton_sublist.2 hbt)
    · by_cases hxb : x = b
      · subst hxb
        rw [List.indexOf_cons_self] at h
        exact absurd h (Nat.not_lt_zero _)
      · rw [List.indexOf_cons_ne _ hxa, List.indexOf_cons_ne _ hxb] at h
        have hbt : b ∈ t := by
          rcases List.mem_cons.1 hb with e | e
          · exact absurd e.symm hxb
          · exact e
        exact List.Sublist.cons _ (ih hbt (Nat.lt_of_succ_lt_succ h))

/-- A duplicate-free list lays out the members of a chain exactly as the chain does, once every
link of the chain is in increasing position. -/
theorem relative_order_eq_of_chain {order chain : List String} (hn : order.Nodup)
    (hsub : ∀ n ∈ chain, n ∈ order)
    (hc : chain.Chain' (fun a b => order.indexOf a < order.indexOf b)) :
    relative_order order chain = chain := by
  haveI : IsTrans String (fun a b => order.indexOf a < order.indexOf b) :=
    ⟨fun _ _ _ h1 h2 => lt_trans h1 h2⟩
  haveI : IsAntisymm String (fun a b => order.indexOf a < order.indexOf b) :=
    ⟨fun _ _ h1 h2 => absurd h1 (not_lt_of_gt h2)⟩
  have hp : chain.Pairwise (fun a b => order.indexOf a < order.indexOf b) :=
    List.chain'_iff_pairwise.1 hc
  have hcn : chain.Nodup := hp.imp (fun h e => by subst e; exact lt_irrefl _ h)
  have hfs : (relative_order order chain).Sublist order := List.filter_sublist _
  refine List.eq_of_perm_of_sorted ?_ ((indexOf_pairwise_of_nodup hn).sublist hfs) hp
  refine (List.perm_ext_iff_of_nodup (hn.sublist hfs) hcn).2 ?_
  intro a
  simp only [relative_order, List.mem_filter, decide_eq_true_eq]
  exact ⟨fun h => h.2, fun h => ⟨hsub a h, h⟩⟩

/-- An order that respects the dependencies puts the two ends of every declared edge in
increasing position. -/
theorem respects_edge {deps : system_t → List String} {regs : List system_t}
    {order : List String} (h : respects deps regs order) {d n : String}
    (he : ∃ s ∈ regs, s.name = n ∧ d ∈ deps s) : order.indexOf d < order.indexOf n := by
  obtain ⟨s, hs, hname, hd⟩ := he
  exact hname ▸ h s hs d hd

theorem valid_order_nodup {deps : system_t → List String} {regs : List system_t}
    {order : List String} (hreg : (system_names regs).Nodup) (h : valid_order deps regs order) :
    order.Nodup :=
  h.1.nodup_iff.2 hreg

theorem valid_order_mem {deps : system_t → List String} {regs : List system_t}
    {order : List String} (h : valid_order deps regs order) {n : String}
    (hn : n ∈ system_names regs) : n ∈ order :=
  h.1.mem_iff.2 hn

/-- Along a chain of declared dependencies positions strictly decrease. -/
theorem indexOf_lt_of_transGen {deps : system_t → List String} {regs : List system_t}
    {order : List String} (h : respects deps regs order) {a b : String}
    (hab : Relation.TransGen (depends_on deps regs) a b) :
    order.indexOf b < order.indexOf a := by
  induction hab with
  | single e => exact respects_edge h e
  | tail _ e ih => exact lt_trans (respects_edge h e) ih

theorem acyclic_of_respects {deps : system_t → List String} {regs : List system_t}
    (order : List String) (h : respects deps regs order) : acyclic deps regs :=
  fun _ hc => lt_irrefl _ (indexOf_lt_of_transGen h hc)

theorem sk_init_names_nodup : (system_names sk_init_systems).Nodup := by decide

theorem sk_init_core_names_nodup : (system_names sk_init_core_systems).Nodup := by decide

theorem chain_of_consecutive {R : String → String → Prop} :
    ∀ l : List String, (∀ p ∈ l.zip l.tail, R p.1 p.2) → l.Chain' R
  | [], _ => List.chain'_nil
  | [a], _ => List.chain'_singleton a
  | a :: b :: t, h =>
    List.chain'_cons.2
      ⟨h (a, b) (by simp),
        chain_of_consecutive (b :: t) (fun p hp => h p (List.mem_cons_of_mem _ hp))⟩

/-- A valid order lays out a chain of declared dependency edges exactly as the chain does. -/
theorem relative_order_of_edges {deps : system_t → List String} {regs : List system_t}
    {order chain : List String} (hreg : (system_names regs).Nodup)
    (h : valid_order deps regs order) (hsub : ∀ n ∈ chain, n ∈ system_names regs)
    (hc : ∀ p ∈ chain.zip chain.tail, depends_on deps regs p.2 p.1) :
    relative_order order chain = chain :=
  relative_order_eq_of_chain (valid_order_nodup hreg h)
    (fun n hn => valid_order_mem h (hsub n hn))
    ((chain_of_consecutive chain hc).imp (fun _ _ e => respects_edge h.2 e))

theorem relative_order_reverse (order chain : List String) :
    relative_order order.reverse chain = (relative_order order chain).reverse := by
  simp [relative_order, List.filter_reverse]

theorem place_at_perm {l : List String} {n : String} (hn : n ∈ l) (i : Nat) :
    (place_at i n (l.erase n)).Perm l := by
  have h1 : (place_at i n (l.erase n)).Perm (n :: ((l.erase n).take i ++ (l.erase n).drop i)) :=
    List.perm_middle
  rw [List.take_append_drop] at h1
  exact h1.trans (List.perm_cons_erase hn).symm

theorem sublist_place_at (i : Nat) (n : String) (l : List String) :
    l.Sublist (place_at i n l) := by
  have h : ((l.take i) ++ (l.drop i)).Sublist (place_at i n l) :=
    List.Sublist.append (List.Sublist.refl _) (List.sublist_cons_self _ _)
  rwa [List.take_append_drop] at h

theorem indexOf_place_at {l : List String} {n : String} (hn : n ∉ l) {i : Nat}
    (hi : i ≤ l.length) : (place_at i n l).indexOf n = i := by
  have hnt : n ∉ l.take i := fun h => hn (List.mem_of_mem_take h)
  rw [place_at, List.indexOf_append_of_not_mem hnt, List.indexOf_cons_self, List.length_take]
  simpa using hi

/-- Moving a subsystem that is on no declared edge to any position keeps an order valid. -/
theorem valid_order_place_at {deps : system_t → List String} {regs : List system_t}
    {order : List String} {n : String} (hreg : (system_names regs).Nodup)
    (hmem : n ∈ system_names regs)
    (hfree : ∀ s ∈ regs, ∀ d ∈ deps s, d ≠ n ∧ s.name ≠ n)
    (h : valid_order deps regs order) (i : Nat) :
    valid_order deps regs (place_at i n (order.erase n)) := by
  have hperm := place_at_perm (valid_order_mem h hmem) i
  refine ⟨hperm.trans h.1, ?_⟩
  intro s hs d hd
  have hlt := h.2 s hs d hd
  have hsn : s.name ∈ order := valid_order_mem h (List.mem_map_of_mem _ hs)
  have hsub : [d, s.name].Sublist order := sublist_of_indexOf_lt hsn hlt
  have hne := hfree s hs d hd
  have herase : ([d, s.name].erase n).Sublist (order.erase n) := List.Sublist.erase n hsub
  have he : [d, s.name].erase n = [d, s.name] := by
    refine List.erase_of_not_mem ?_
    intro hmem2
    rcases List.mem_cons.1 hmem2 with e | e
    · exact hne.1 e.symm
    · rcases List.mem_cons.1 e with e2 | e2
      · exact hne.2 e2.symm
      · cases e2
  rw [he] at herase
  exact indexOf_lt_of_sublist (hperm.nodup_iff.2 (valid_order_nodup hreg h))
    (herase.trans (sublist_place_at i n _))

/-- C1: with the init dependencies `sk_init` declares for Graphics, Defaults and Platform, the one
ordering of the three in which each comes after its init dependencies is
[Graphics, Defaults, Platform], its reverse (the shutdown order) is
[Platform, Defaults, Graphics], and every ordering of all eleven registered subsystems that
respects the init dependencies lays the three out in that same relative order (reversed for
shutdown). -/
theorem core_init_order_unique :
    (∀ order : List String,
      valid_order system_t.init_dependencies sk_init_core_systems order ↔
        order = ["Graphics", "Defaults", "Platform"]) ∧
    (["Graphics", "Defaults", "Platform"] : List String).reverse
      = ["Platform", "Defaults", "Graphics"] ∧
    (∀ order : List String,
      valid_order system_t.init_dependencies sk_init_systems order →
        relative_order order ["Graphics", "Defaults", "Platform"]
          = ["Graphics", "Defaults", "Platform"] ∧
        relative_order order.reverse ["Graphics", "Defaults", "Platform"]
          = ["Platform", "Defaults", "Graphics"]) := by
  refine ⟨?_, rfl, ?_⟩
  · intro order
    constructor
    · intro h
      have hrel : relative_order order ["Graphics", "Defaults", "Platform"]
          = ["Graphics", "Defaults", "Platform"] :=
        relative_order_of_edges sk_init_core_names_nodup h (by decide) (by decide)
      have hall : relative_order order ["Graphics", "Defaults", "Platform"] = order := by
        refine List.filter_eq_self.2 ?_
        intro a ha
        have hm : a ∈ system_names sk_init_core_systems := h.1.mem_iff.1 ha
        have hm2 : a ∈ ["Graphics", "Defaults", "Platform"] := hm
        simpa using hm2
      rw [← hall, hrel]
    · intro h
      subst h
      decide
  · intro order h
    have hrel : relative_order order ["Graphics", "Defaults", "Platform"]
        = ["Graphics", "Defaults", "Platform"] :=
      relative_order_of_edges sk_init_names_nodup h (by decide) (by decide)
    refine ⟨hrel, ?_⟩
    rw [relative_order_reverse, hrel]
    rfl

theorem core_init_order_unique_witness :
    valid_order system_t.init_dependencies sk_init_systems (system_names sk_init_systems) ∧
    relative_order (system_names sk_init_systems) ["Graphics", "Defaults", "Platform"]
      = ["Graphics", "Defaults", "Platform"] :=
  ⟨by decide, (core_init_order_unique.2.2 (system_names sk_init_systems) (by decide)).1⟩

/-- C2: the init-dependency graph and the update-dependency graph of the eleven registrations of
`sk_init` are each acyclic, and each admits an ordering of all eleven subsystems in which every
subsystem comes after all of its declared dependencies. -/
theorem sk_init_graphs_acyclic :
    acyclic system_t.init_dependencies sk_init_systems ∧
    acyclic system_t.update_dependencies sk_init_systems ∧
    (∃ order, valid_order system_t.init_dependencies sk_init_systems order) ∧
    (∃ order, valid_order system_t.update_dependencies sk_init_systems order) :=
  ⟨acyclic_of_respects (system_names sk_init_systems) (by decide),
   acyclic_of_respects sample_update_order (by decide),
   ⟨system_names sk_init_systems, by decide⟩,
   ⟨sample_update_order, by decide⟩⟩

/-- No chain of update dependencies leads from App back to App. -/
theorem sk_init_graphs_acyclic_witness :
    ¬ Relation.TransGen (depends_on system_t.update_dependencies sk_init_systems) "App" "App" :=
  sk_init_graphs_acyclic.2.1 "App"

/-- C3: every name `sk_init` passes in an init- or update-dependency list is, by exact string
comparison, the name of one of the subsystems the same `sk_init` registers; this includes
"Input", "FrameBegin" and "App", which are named as dependencies before they are registered. -/
theorem sk_init_dependencies_registered :
    (∀ s ∈ sk_init_systems, ∀ d ∈ s.init_dependencies ++ s.update_dependencies,
      d ∈ system_names sk_init_systems) ∧
    (∀ d ∈ ["Input", "FrameBegin", "App"],
      ∃ s ∈ sk_init_systems, d ∈ s.init_dependencies ++ s.update_dependencies ∧
        (system_names sk_init_systems).indexOf s.name
          < (system_names sk_init_systems).indexOf d) := by
  decide

/-- Physics names Input as an update dependency; Input is a registered name. -/
theorem sk_init_dependencies_registered_witness :
    "Input" ∈ system_names sk_init_systems :=
  sk_init_dependencies_registered.1
    { name := "Physics", init_dependencies := ["Defaults"],
      update_dependencies := ["Input", "FrameBegin"],
      func_initialize := some "physics_init", func_update := some "physics_update",
      func_shutdown := some "physics_shutdown" }
    (by decide) "Input" (by decide)

/-- C4: whatever its arguments and the globals it starts from, one `sk_init` call registers the
eleven names listed, in that order, and they are pairwise distinct under exact string
comparison. -/
theorem sk_init_names_distinct {σ κ : Type} (app_name : String)
    (runtime_preference : sk_runtime_) (fallback : Int) (g : engine_state σ κ) :
    system_names (sk_init app_name runtime_preference fallback g).2
      = ["Graphics", "Defaults", "Platform", "Physics", "Renderer", "Input", "Text", "App",
         "FrameBegin", "FrameEnd", "FramePresent"] ∧
    (system_names (sk_init app_name runtime_preference fallback g).2).Nodup ∧
    (system_names (sk_init app_name runtime_preference fallback g).2).Pairwise
      (fun a b => a ≠ b) ∧
    (sk_init app_name runtime_preference fallback g).2.length = 11 := by
  have h : (sk_init app_name runtime_preference fallback g).2 = sk_init_systems := rfl
  rw [h]
  decide

/-- A mixed-reality start with fallback registers eleven subsystems. -/
theorem sk_init_names_distinct_witness :
    (sk_init "app" sk_runtime_.sk_runtime_mixedreality 1
      (initial_state () : engine_state Unit Unit)).2.length = 11 :=
  (sk_init_names_distinct "app" sk_runtime_.sk_runtime_mixedreality 1
    (initial_state () : engine_state Unit Unit)).2.2.2

/-- C5: for every callback and every state of the globals, `sk_step` runs the update pass on the
globals with the callback stored as `sk_app_update_func`, makes exactly one `systems_update`
call, first, and returns the value `sk_run` has after the pass: zero when the pass left it zero,
the prior value when the pass left it as it was. -/
theorem sk_step_returns_run_flag {σ κ : Type}
    (systems_update : engine_state σ κ → engine_state σ κ) (app_update : Option κ)
    (g : engine_state σ κ) :
    (sk_step systems_update app_update g).state
      = systems_update { g with sk_app_update_func := app_update } ∧
    (sk_step systems_update app_update g).ret
      = (systems_update { g with sk_app_update_func := app_update }).sk_run ∧
    (sk_step systems_update app_update g).calls.count call.systems_update = 1 ∧
    (sk_step systems_update app_update g).calls.head? = some call.systems_update ∧
    ((systems_update { g with sk_app_update_func := app_update }).sk_run = 0 →
      (sk_step systems_update app_update g).ret = 0) ∧
    ((systems_update { g with sk_app_update_func := app_update }).sk_run = g.sk_run →
      (sk_step systems_update app_update g).ret = g.sk_run) := by
  refine ⟨rfl, rfl, ?_, rfl, fun h => h, fun h => h⟩
  simp only [sk_step]
  split <;> simp [List.count_cons]

/-- An update pass that runs only the application callback, which clears `sk_run`: the same
`sk_step` call returns false, after one update pass. -/
theorem sk_step_returns_run_flag_witness :
    (sk_step (sk_app_update (fun (_ : Unit) g => { g with sk_run := 0 })) (some ())
        (initial_state ())).ret = 0 ∧
    (sk_step (sk_app_update (fun (_ : Unit) g => { g with sk_run := 0 })) (some ())
        (initial_state ())).calls.count call.systems_update = 1 :=
  ⟨(sk_step_returns_run_flag (sk_app_update (fun (_ : Unit) g => { g with sk_run := 0 }))
      (some ()) (initial_state ())).2.2.2.2.1 rfl,
   (sk_step_returns_run_flag (sk_app_update (fun (_ : Unit) g => { g with sk_run := 0 }))
      (some ()) (initial_state ())).2.2.1⟩

/-- C6: after its update pass `sk_step` makes no further call when `sk_focused` is non-zero, and
exactly one `sleep_for` call, of 250 milliseconds, when `sk_focused` is zero; a sleep of
1 millisecond is never requested. -/
theorem sk_step_idle_delay {σ κ : Type}
    (systems_update : engine_state σ κ → engine_state σ κ) (app_update : Option κ)
    (g : engine_state σ κ) :
    (sk_step systems_update app_update g).calls
      = (if (systems_update { g with sk_app_update_func := app_update }).sk_focused = 0
          then [call.systems_update, call.sleep_for 250] else [call.systems_update]) ∧
    ((∃ ms, call.sleep_for ms ∈ (sk_step systems_update app_update g).calls) ↔
      (systems_update { g with sk_app_update_func := app_update }).sk_focused = 0) ∧
    (∀ ms, (sk_step systems_update app_update g).calls.count (call.sleep_for ms)
      = if (systems_update { g with sk_app_update_func := app_update }).sk_focused = 0 ∧ ms = 250
          then 1 else 0) ∧
    call.sleep_for 1 ∉ (sk_step systems_update app_update g).calls := by
  by_cases h : (systems_update { g with sk_app_update_func := app_update }).sk_focused = 0
  · simp only [sk_step, h, List.count_cons]
    simp only [ne_eq, not_true_eq_false, if_false, if_true, true_and]
    refine ⟨⟨fun _ => trivial, fun _ => ⟨250, by simp⟩⟩, ?_, by simp⟩
    intro ms
    by_cases hm : ms = 250
    · subst hm
      simp
    · have hm2 : ¬ (250 = ms) := fun e => hm e.symm
      simp [hm, hm2]
  · simp [sk_step, h, List.count_cons]

/-- An unfocused engine whose update pass changes nothing: one update pass, then one sleep of
250 milliseconds. -/
theorem sk_step_idle_delay_witness :
    (sk_step id none
      ({ (initial_state () : engine_state Unit Unit) with sk_focused := 0 })).calls
      = [call.systems_update, call.sleep_for 250] :=
  (sk_step_idle_delay id none
    ({ (initial_state () : engine_state Unit Unit) with sk_focused := 0 })).1.trans (if_pos rfl)

/-- C7: `sk_set_settings` leaves every global as it was and only logs an error when
`sk_d3d_initialized` is set; when the flag is clear it stores the argument in `sk_settings`,
logs nothing, and leaves every other global as it was. -/
theorem sk_set_settings_before_init {σ κ : Type} (settings : σ) (g : engine_state σ κ) :
    (g.sk_d3d_initialized = true →
      (sk_set_settings settings g).state = g ∧
      (sk_set_settings settings g).calls = [call.log_write log_.log_error
        "Settings need set before initialization! Please call this -before- sk_init."]) ∧
    (g.sk_d3d_initialized = false →
      (sk_set_settings settings g).state.sk_settings = settings ∧
      (sk_set_settings settings g).calls = []) ∧
    (sk_set_settings settings g).state.sk_app_name = g.sk_app_name ∧
    (sk_set_settings settings g).state.sk_app_update_func = g.sk_app_update_func ∧
    (sk_set_settings settings g).state.sk_runtime = g.sk_runtime ∧
    (sk_set_settings settings g).state.sk_runtime_fallback = g.sk_runtime_fallback ∧
    (sk_set_settings settings g).state.sk_focused = g.sk_focused ∧
    (sk_set_settings settings g).state.sk_run = g.sk_run ∧
    (sk_set_settings settings g).state.sk_d3d_initialized = g.sk_d3d_initialized := by
  cases h : g.sk_d3d_initialized <;> simp [sk_set_settings, h]

/-- Settings (1, 2) offered to an engine holding (100, 100): stored before initialization,
refused once the graphics device is initialized. -/
theorem sk_set_settings_before_init_witness :
    (sk_set_settings ((1, 2) : Nat × Nat)
      (initial_state (100, 100) : engine_state (Nat × Nat) Unit)).state.sk_settings = (1, 2) ∧
    (sk_set_settings ((1, 2) : Nat × Nat)
      ({ (initial_state (100, 100) : engine_state (Nat × Nat) Unit) with
          sk_d3d_initialized := true })).state.sk_settings = (100, 100) :=
  ⟨((sk_set_settings_before_init ((1, 2) : Nat × Nat)
      (initial_state (100, 100) : engine_state (Nat × Nat) Unit)).2.1 rfl).1,
   congrArg engine_state.sk_settings
    ((sk_set_settings_before_init ((1, 2) : Nat × Nat)
      ({ (initial_state (100, 100) : engine_state (Nat × Nat) Unit) with
          sk_d3d_initialized := true })).1 rfl).1⟩

/-- C10: in a build with flatscreen support `platform_init` returns true exactly when the init of
the preferred runtime succeeds, or the preference is mixed reality, fallback is enabled and
`win32_init` succeeds; it calls `win32_init` at most once, exactly once when flatscreen is the
preference; and when it returns true `sk_runtime` names a runtime whose init was called and
succeeded. -/
theorem platform_init_success {σ κ : Type} (openxr_init : Bool) (win32_init : Nat → Bool)
    (g : engine_state σ κ) :
    ((platform_init false openxr_init win32_init g).ret = true ↔
      ((if g.sk_runtime = sk_runtime_.sk_runtime_mixedreality then openxr_init
        else win32_init 0) = true ∨
       (g.sk_runtime = sk_runtime_.sk_runtime_mixedreality ∧ g.sk_runtime_fallback = true ∧
        win32_init 0 = true))) ∧
    (platform_init false openxr_init win32_init g).calls.count call.win32_init ≤ 1 ∧
    (g.sk_runtime = sk_runtime_.sk_runtime_flatscreen →
      (platform_init false openxr_init win32_init g).calls.count call.win32_init = 1) ∧
    ((platform_init false openxr_init win32_init g).ret = true →
      ((platform_init false openxr_init win32_init g).state.sk_runtime
          = sk_runtime_.sk_runtime_mixedreality ∧
        openxr_init = true ∧
        call.openxr_init ∈ (platform_init false openxr_init win32_init g).calls) ∨
      ((platform_init false openxr_init win32_init g).state.sk_runtime
          = sk_runtime_.sk_runtime_flatscreen ∧
        win32_init 0 = true ∧
        call.win32_init ∈ (platform_init false openxr_init win32_init g).calls)) := by
  cases hr : g.sk_runtime <;> cases hx : openxr_init <;> cases hf : g.sk_runtime_fallback <;>
    cases hw : win32_init 0 <;>
    simp [platform_init, hr, hx, hf, hw, List.count_cons, List.count_append, runtime_label]

/-- Mixed reality preferred with fallback enabled, `openxr_init` failing and `win32_init`
succeeding: `platform_init` returns true with `sk_runtime` switched to flatscreen. -/
theorem platform_init_success_witness :
    (platform_init false false (fun _ => true)
      ({ (initial_state () : engine_state Unit Unit) with
          sk_runtime := sk_runtime_.sk_runtime_mixedreality,
          sk_runtime_fallback := true })).state.sk_runtime
      = sk_runtime_.sk_runtime_flatscreen :=
  ((platform_init_success false (fun _ => true)
      ({ (initial_state () : engine_state Unit Unit) with
          sk_runtime := sk_runtime_.sk_runtime_mixedreality,
          sk_runtime_fallback := true })).2.2.2 rfl).elim
    (fun h => absurd h.2.1 (by decide)) (fun h => h.1)

/-- C8: every ordering of the eleven subsystems that respects the update dependencies lays out
FrameBegin, Input, Physics, Renderer, App, Text, FrameEnd, FramePresent in exactly that relative
order and has Graphics and Defaults before App; Platform may be moved to any of the eleven
positions of such an ordering; and every subsystem other than Platform stands, in all such
orderings, on one fixed side of some other subsystem. -/
theorem update_order_chain :
    (∀ order : List String,
      valid_order system_t.update_dependencies sk_init_systems order →
        relative_order order ["FrameBegin", "Input", "Physics", "Renderer", "App", "Text",
            "FrameEnd", "FramePresent"]
          = ["FrameBegin", "Input", "Physics", "Renderer", "App", "Text", "FrameEnd",
             "FramePresent"] ∧
        order.indexOf "Graphics" < order.indexOf "App" ∧
        order.indexOf "Defaults" < order.indexOf "App") ∧
    (∀ order : List String,
      valid_order system_t.update_dependencies sk_init_systems order →
        ∀ i : Nat, i ≤ 10 →
          valid_order system_t.update_dependencies sk_init_systems
            (place_at i "Platform" (order.erase "Platform")) ∧
          (place_at i "Platform" (order.erase "Platform")).indexOf "Platform" = i) ∧
    (∀ n ∈ system_names sk_init_systems, n ≠ "Platform" →
      ∃ m ∈ system_names sk_init_systems, m ≠ n ∧
        ((∀ order : List String,
            valid_order system_t.update_dependencies sk_init_systems order →
              order.indexOf m < order.indexOf n) ∨
         (∀ order : List String,
            valid_order system_t.update_dependencies sk_init_systems order →
              order.indexOf n < order.indexOf m))) := by
  refine ⟨?_, ?_, ?_⟩
  · intro order h
    exact ⟨relative_order_of_edges sk_init_names_nodup h (by decide) (by decide),
      respects_edge h.2 (by decide), respects_edge h.2 (by decide)⟩
  · intro order h i hi
    refine ⟨valid_order_place_at sk_init_names_nodup (by decide) (by decide) h i, ?_⟩
    have hn : order.Nodup := valid_order_nodup sk_init_names_nodup h
    have hmem : "Platform" ∈ order := valid_order_mem h (by decide)
    refine indexOf_place_at (hn.not_mem_erase) ?_
    have hlen : order.length = 11 := h.1.length_eq
    rw [List.length_erase_of_mem hmem, hlen]
    exact hi
  · have hedge : ∀ n ∈ system_names sk_init_systems, n ≠ "Platform" →
        ∃ m ∈ system_names sk_init_systems, m ≠ n ∧
          (depends_on system_t.update_dependencies sk_init_systems n m ∨
           depends_on system_t.update_dependencies sk_init_systems m n) := by
      decide
    intro n hn hne
    obtain ⟨m, hm, hmn, he⟩ := hedge n hn hne
    refine ⟨m, hm, hmn, ?_⟩
    rcases he with e | e
    · exact Or.inl (fun order h => respects_edge h.2 e)
    · exact Or.inr (fun order h => respects_edge h.2 e)

/-- The sample update order is valid, so it has the chain in order, and Platform can be moved
from third place to the very end. -/
theorem update_order_chain_witness :
    relative_order sample_update_order ["FrameBegin", "Input", "Physics", "Renderer", "App",
        "Text", "FrameEnd", "FramePresent"]
      = ["FrameBegin", "Input", "Physics", "Renderer", "App", "Text", "FrameEnd",
         "FramePresent"] ∧
    valid_order system_t.update_dependencies sk_init_systems
      (place_at 10 "Platform" (sample_update_order.erase "Platform")) :=
  ⟨(update_order_chain.1 sample_update_order (by decide)).1,
   (update_order_chain.2.1 sample_update_order (by decide) 10 (by decide)).1⟩

set_option maxRecDepth 100000 in
/-- C9: every init dependency declared in `sk_init` is registered strictly earlier than the
subsystem declaring it, so the registration order respects the init dependencies; it is the init
order that a topological sort breaking ties by registration order computes (Kahn-style or
depth-first), with the shutdown order its reverse. The update dependencies are not all
registered earlier: Physics declares Input and FrameBegin, both registered after it. -/
theorem registration_order_is_init_order :
    (∀ s ∈ sk_init_systems, ∀ d ∈ s.init_dependencies,
      (system_names sk_init_systems).indexOf d < (system_names sk_init_systems).indexOf s.name) ∧
    valid_order system_t.init_dependencies sk_init_systems (system_names sk_init_systems) ∧
    kahn_sort system_t.init_dependencies sk_init_systems
      = Except.ok ["Graphics", "Defaults", "Platform", "Physics", "Renderer", "Input", "Text",
          "App", "FrameBegin", "FrameEnd", "FramePresent"] ∧
    dfs_sort system_t.init_dependencies sk_init_systems
      = Except.ok ["Graphics", "Defaults", "Platform", "Physics", "Renderer", "Input", "Text",
          "App", "FrameBegin", "FrameEnd", "FramePresent"] ∧
    shutdown_order (system_names sk_init_systems)
      = ["FramePresent", "FrameEnd", "FrameBegin", "App", "Text", "Input", "Renderer", "Physics",
         "Platform", "Defaults", "Graphics"] ∧
    ¬ respects system_t.update_dependencies sk_init_systems (system_names sk_init_systems) ∧
    (∃ s ∈ sk_init_systems, s.name = "Physics" ∧
      s.update_dependencies = ["Input", "FrameBegin"] ∧
      (system_names sk_init_systems).indexOf "Physics"
        < (system_names sk_init_systems).indexOf "Input" ∧
      (system_names sk_init_systems).indexOf "Physics"
        < (system_names sk_init_systems).indexOf "FrameBegin") :=
  ⟨by decide, by decide, by rfl, by rfl, by decide, by decide, by decide⟩

/-- Input declares an init dependency on Platform, which is registered before it. -/
theorem registration_order_is_init_order_witness :
    (system_names sk_init_systems).indexOf "Platform"
      < (system_names sk_init_systems).indexOf "Input" :=
  registration_order_is_init_order.1
    { name := "Input", init_dependencies := ["Platform", "Defaults"],
      update_dependencies := ["FrameBegin"],
      func_initialize := some "input_init", func_update := some "input_update",
      func_shutdown := some "input_shutdown" }
    (by decide) "Platform" (by decide)

end StereoKit
